import Mathlib

/-!
Shallow embedding of `src/server.py` (a Flask CEC + Wake-on-LAN hub) and
proofs about its public operations `tv_on`, `tv_off`, `tv_status`,
`send_wol` and `wol_handler`.

Modelling decisions, all traceable to the source:
  * Python strings are modelled as `List Char` (`PyStr`), and the Python
    string operations the program uses (`strip`, `lower`, `splitlines`,
    `split`, `in`, `replace`, `bytes.fromhex`) are given executable
    definitions below, faithful to their CPython semantics on the ASCII
    data this program handles.
  * `cec_send` spawns one `cec-client` subprocess per call
    (`subprocess.run(["cec-client","-s","-d","1"], input=command+"\n",
    capture_output=True, text=True, timeout=10)`).  The outside world is a
    `Transport`: a state machine mapping the current world state and the
    command string piped to the process to a new state and a `RunOutcome`.
  * Python exceptions are embedded as `Except`: an exception the code
    catches becomes an `Except.ok` value per the handler; an exception the
    code does not catch becomes `Except.error` (it propagates to the
    caller).  `cec_send` catches exactly `FileNotFoundError` and
    `subprocess.TimeoutExpired`; any other fault of `subprocess.run`
    (e.g. `PermissionError`) is uncaught.
-/

/-- Python strings, modelled as their character lists. -/
abbrev PyStr := List Char

deriving instance DecidableEq for Except

/-- The ASCII whitespace characters `str.strip` removes. -/
def pyIsSpace (c : Char) : Bool :=
  c = ' ' || c = '\t' || c = '\n' || c = '\x0d' || c = '\x0b' || c = '\x0c'

/-- Python `str.strip()`: drop whitespace from both ends. -/
def pyStrip (s : PyStr) : PyStr :=
  ((s.dropWhile pyIsSpace).reverse.dropWhile pyIsSpace).reverse

/-- Python `str.lower()` on ASCII: map the 26 uppercase letters down. -/
def lowerChar (c : Char) : Char :=
  if c.toNat ≥ 65 && c.toNat ≤ 90 then Char.ofNat (c.toNat + 32) else c

/-- Python `str.lower()` (the program only feeds it ASCII cec-client
output). -/
def pyLower (s : PyStr) : PyStr :=
  s.map lowerChar

/-- Whether `pat` is a prefix of `s` (Boolean, executable). -/
def isPrefixList : PyStr → PyStr → Bool
  | [], _ => true
  | _ :: _, [] => false
  | p :: ps, c :: cs => p == c && isPrefixList ps cs

/-- Python `pat in s` (substring containment). -/
def containsSub (pat : PyStr) : PyStr → Bool
  | [] => pat.isEmpty
  | c :: rest => isPrefixList pat (c :: rest) || containsSub pat rest

/-- Worker for Python `str.split(sep)` with a non-empty separator: scan left
to right, consuming non-overlapping occurrences of `sep`.  `fuel` only
guards totality; it is initialized to more steps than the scan can take. -/
def pySplitAux (pat : PyStr) : Nat → PyStr → PyStr → List PyStr
  | 0, acc, s => [acc.reverse ++ s]
  | fuel + 1, acc, s =>
    match s with
    | [] => [acc.reverse]
    | c :: rest =>
      if isPrefixList pat (c :: rest) then
        acc.reverse :: pySplitAux pat fuel [] ((c :: rest).drop pat.length)
      else
        pySplitAux pat fuel (c :: acc) rest

/-- Python `str.split(sep)` for a non-empty `sep`. -/
def pySplit (pat s : PyStr) : List PyStr :=
  pySplitAux pat (s.length + 1) [] s

/-- Worker for `str.splitlines`: split at every newline. -/
def pySplitLinesAux : PyStr → PyStr → List PyStr
  | acc, [] => [acc.reverse]
  | acc, c :: rest =>
    if c = '\n' then acc.reverse :: pySplitLinesAux [] rest
    else pySplitLinesAux (c :: acc) rest

/-- Python `str.splitlines()` restricted to `\n` boundaries (the only line
terminator in cec-client's output): an empty string has no lines, and a
trailing terminator does not open a final empty line. -/
def pySplitLines (s : PyStr) : List PyStr :=
  if s.isEmpty then []
  else
    let parts := pySplitLinesAux [] s
    if s.getLast? = some '\n' then parts.dropLast else parts

/-- Python `s.replace(x, "")` for a single-character `x`: every occurrence
of `x` is removed, i.e. the character is filtered out. -/
def pyRemoveAll (x : Char) (s : PyStr) : PyStr :=
  s.filter (fun c => c ≠ x)

/-- The numeric value of a hexadecimal digit, if `c` is one. -/
def hexDigitVal (c : Char) : Option Nat :=
  if '0' ≤ c && c ≤ '9' then some (c.toNat - 48)
  else if 'a' ≤ c && c ≤ 'f' then some (c.toNat - 87)
  else if 'A' ≤ c && c ≤ 'F' then some (c.toNat - 55)
  else none

/-- Worker for `bytes.fromhex`: ASCII whitespace is skipped between byte
pairs; each byte needs two consecutive hex digits; on a bad (or missing)
digit the scan fails with the offending position, as CPython reports. -/
def fromhexAux : PyStr → Nat → Except Nat (List Nat)
  | [], _ => .ok []
  | c :: rest, i =>
    if pyIsSpace c then fromhexAux rest (i + 1)
    else
      match hexDigitVal c with
      | none => .error i
      | some hi =>
        match rest with
        | [] => .error (i + 1)
        | c2 :: rest2 =>
          match hexDigitVal c2 with
          | none => .error (i + 1)
          | some lo => (fromhexAux rest2 (i + 2)).map (fun bs => (hi * 16 + lo) :: bs)

/-- Python `bytes.fromhex(s)`: the decoded bytes, or the position at which
decoding failed. -/
def bytes_fromhex (s : PyStr) : Except Nat (List Nat) :=
  fromhexAux s 0

/-- `str(e)` for the `ValueError` that `bytes.fromhex` raises at
position `i`. -/
def fromhexErrMsg (i : Nat) : PyStr :=
  "non-hexadecimal number found in fromhex() arg at position ".data ++ (Nat.repr i).data

/-- Outcome of one `subprocess.run(["cec-client", ...], timeout=10)` call:
the process completed within the timeout with a return code and captured
stdout; the binary was absent (`FileNotFoundError`); the 10-second timeout
elapsed (`subprocess.TimeoutExpired`); or some other exception was raised
(e.g. `PermissionError` when the binary is not executable). -/
inductive RunOutcome where
  | completed (returncode : Int) (stdout : PyStr)
  | fileNotFound
  | timedOut
  | otherError (msg : PyStr)
deriving DecidableEq

/-- The world outside `server.py`, as seen through `subprocess.run`:
`run` consumes the current world state and the text piped to `cec-client`
and yields the next state and the call's outcome; `time` gives the
wall-clock seconds the spawned process would need if never interrupted. -/
structure Transport (σ : Type) where
  run : σ → PyStr → σ × RunOutcome
  time : σ → PyStr → Nat

/-- `CEC_DEVICE = "0"` from server.py line 52. -/
def CEC_DEVICE : PyStr := "0".data

/-- `cec_send` (server.py lines 66-80): run `cec-client -s -d 1` feeding it
`command`; return `(returncode == 0, stdout.strip())`; convert
`FileNotFoundError` to `(False, "cec-client not found")` and
`TimeoutExpired` to `(False, "cec-client timed out")`; let every other
exception propagate (`Except.error`). -/
def cec_send {σ : Type} (t : Transport σ) (s : σ) (command : PyStr) :
    σ × Except PyStr (Bool × PyStr) :=
  match t.run s command with
  | (s2, .completed rc out) => (s2, .ok (rc == 0, pyStrip out))
  | (s2, .fileNotFound) => (s2, .ok (false, "cec-client not found".data))
  | (s2, .timedOut) => (s2, .ok (false, "cec-client timed out".data))
  | (s2, .otherError e) => (s2, .error e)

/-- `tv_on` (server.py lines 83-85): one `cec_send` of `f"on {CEC_DEVICE}"`;
the message is `"TV turned on"` on success, otherwise the cec-client
output. -/
def tv_on {σ : Type} (t : Transport σ) (s : σ) :
    σ × Except PyStr (Bool × PyStr) :=
  let (s2, res) := cec_send t s ("on ".data ++ CEC_DEVICE)
  (s2, match res with
    | .ok (ok, output) => .ok (ok, if ok then "TV turned on".data else output)
    | .error e => .error e)

/-- `tv_off` (server.py lines 88-90): one `cec_send` of
`f"standby {CEC_DEVICE}"`; the message is `"TV turned off"` on success,
otherwise the cec-client output. -/
def tv_off {σ : Type} (t : Transport σ) (s : σ) :
    σ × Except PyStr (Bool × PyStr) :=
  let (s2, res) := cec_send t s ("standby ".data ++ CEC_DEVICE)
  (s2, match res with
    | .ok (ok, output) => .ok (ok, if ok then "TV turned off".data else output)
    | .error e => .error e)

/-- The body of the `for line in output.splitlines()` loop of `tv_status`
(server.py lines 98-104): a line containing `"power status:"`
(case-insensitively) yields `(True, "on")` when the text after the last
occurrence contains `"on"`, else `(True, "off")`; other lines yield
nothing. -/
def parsePowerLine (line : PyStr) : Option (Bool × PyStr) :=
  if containsSub "power status:".data (pyLower line) then
    if containsSub "on".data
        ((pySplit "power status:".data (pyLower line)).getLastD []) then
      some (true, "on".data)
    else
      some (true, "off".data)
  else
    none

/-- The loop of `tv_status`: return at the first line that parses. -/
def scanStatusLines : List PyStr → Option (Bool × PyStr)
  | [] => none
  | line :: rest =>
    match parsePowerLine line with
    | some r => some r
    | none => scanStatusLines rest

/-- `tv_status` (server.py lines 93-105): one `cec_send` of
`f"pow {CEC_DEVICE}"`; on a failed send return `(False, output)`; otherwise
scan the output lines for a power-status report, and if none parses return
`(False, "could not parse power status: " + output)`. -/
def tv_status {σ : Type} (t : Transport σ) (s : σ) :
    σ × Except PyStr (Bool × PyStr) :=
  let (s2, res) := cec_send t s ("pow ".data ++ CEC_DEVICE)
  (s2, match res with
    | .ok (ok, output) =>
      if !ok then .ok (false, output)
      else
        match scanStatusLines (pySplitLines output) with
        | some r => .ok r
        | none => .ok (false, "could not parse power status: ".data ++ output)
    | .error e => .error e)

/-- Instrumentation: lift a transport so that the state also counts how many
times `run` is consulted, i.e. how many `cec-client` processes an operation
spawns. -/
def counting {σ : Type} (t : Transport σ) : Transport (Nat × σ) where
  run := fun p cmd => ((p.1 + 1, (t.run p.2 cmd).1), (t.run p.2 cmd).2)
  time := fun p cmd => t.time p.2 cmd

/-- Instrumentation: the CEC command lines that actually reach a running
`cec-client` process (and hence the CEC bus).  When the spawn itself fails
(`FileNotFoundError`, or another spawn-time fault) no process ever runs and
no bus traffic occurs; a completed or timed-out process did run. -/
def cec_traffic {σ : Type} (t : Transport σ) (s : σ) (command : PyStr) :
    List PyStr :=
  match (t.run s command).2 with
  | .completed _ _ => [command]
  | .timedOut => [command]
  | .fileNotFound => []
  | .otherError _ => []

/-- Bus traffic of one `tv_status` call: its single `pow 0` send, when the
spawn succeeds. -/
def tv_status_traffic {σ : Type} (t : Transport σ) (s : σ) : List PyStr :=
  cec_traffic t s ("pow ".data ++ CEC_DEVICE)

/-- Wall-clock seconds one `cec_send` call consumes: `subprocess.run` is
called with `timeout=10`, so it returns (or raises `TimeoutExpired`) after
at most 10 seconds — the process duration capped at the timeout. -/
def cec_send_elapsed {σ : Type} (t : Transport σ) (s : σ) (command : PyStr) :
    Nat :=
  min (t.time s command) 10

/-- Wall-clock seconds of one `tv_on` call: its single `cec_send`. -/
def tv_on_elapsed {σ : Type} (t : Transport σ) (s : σ) : Nat :=
  cec_send_elapsed t s ("on ".data ++ CEC_DEVICE)

/-- Wall-clock seconds of one `tv_off` call: its single `cec_send`. -/
def tv_off_elapsed {σ : Type} (t : Transport σ) (s : σ) : Nat :=
  cec_send_elapsed t s ("standby ".data ++ CEC_DEVICE)

/-- Wall-clock seconds of one `tv_status` call: its single `cec_send`. -/
def tv_status_elapsed {σ : Type} (t : Transport σ) (s : σ) : Nat :=
  cec_send_elapsed t s ("pow ".data ++ CEC_DEVICE)

/-- `send_wol` (server.py lines 113-125): strip `:` and `-` from the MAC,
hex-decode it, reject anything but exactly 6 bytes, and send the magic
packet `b"\xff" * 6 + mac_bytes * 16` as one UDP datagram.  The result pairs
the returned `(success, message)` with the datagram sent (`none` when
nothing was sent).  A `ValueError` from `bytes.fromhex` is caught by the
function's `except Exception` clause and returned as `(False, str(e))`; the
socket operations are modelled as succeeding (a socket fault would be
caught by the same clause, also sending nothing). -/
def send_wol (mac : PyStr) : (Bool × PyStr) × Option (List Nat) :=
  match bytes_fromhex (pyRemoveAll '-' (pyRemoveAll ':' mac)) with
  | .error i => ((false, fromhexErrMsg i), none)
  | .ok macBytes =>
    if macBytes.length ≠ 6 then ((false, "invalid MAC address".data), none)
    else
      ((true, "WoL packet sent to ".data ++ mac),
        some (List.replicate 6 255 ++ (List.replicate 16 macBytes).flatten))

/-- The JSON body of a `/wol` request, as far as `wol_handler` inspects it:
the values of its `target` and `mac` keys, when present.  A missing or
unparsable body (`request.get_json(silent=True) or {}`) has neither. -/
structure WolBody where
  target : Option PyStr
  mac : Option PyStr

/-- An inbound `/wol` HTTP request: method, the
`Tailscale-User-Login` header (absent, empty or a login), and the body. -/
structure WolRequest where
  method : PyStr
  tsUser : Option PyStr
  body : WolBody

/-- `wol_handler` (server.py lines 153-185) over the loaded `wol_targets`
map (name to MAC): GET answers the health check; a missing or empty
`Tailscale-User-Login` header is rejected with 403; a named target is
resolved through the map (unknown names get 400); with neither `target` nor
`mac` in the body the request gets 400; otherwise `send_wol` runs and its
success picks 200 or 500.  The result pairs the HTTP status with the list
of WoL datagrams sent.  The route only admits GET and POST, so a non-GET
method is POST. -/
def wol_handler (targets : List (PyStr × PyStr)) (req : WolRequest) :
    Nat × List (List Nat) :=
  if req.method = "GET".data then (200, [])
  else if req.tsUser.getD [] = [] then (403, [])
  else
    match req.body.target with
    | some name =>
      match List.lookup name targets with
      | none => (400, [])
      | some macAddr =>
        let r := send_wol macAddr
        (if r.1.1 then 200 else 500, r.2.toList)
    | none =>
      match req.body.mac with
      | some m =>
        let r := send_wol m
        (if r.1.1 then 200 else 500, r.2.toList)
      | none => (400, [])

/-- Modelled from the spec: the `PowerState` enumeration of spec §3.  No
such type exists in `src/server.py` (whose status values are the strings
`"on"`/`"off"`); it is needed to state the Status-Oracle claim. -/
inductive PowerState where
  | On
  | Standby
  | TransitioningToOn
  | TransitioningToStandby
  | Unknown
deriving DecidableEq

/-- Modelled from the spec: a `StatusReport` of spec §3, one asynchronous
status notification. -/
structure StatusReport where
  observedState : PowerState
  timestamp : Nat
deriving DecidableEq

/-- Modelled from the spec: the two events that mutate the Status Oracle of
spec §4.2 — `clear()` discards the current report and arms a fresh wait;
`deliver(report)` overwrites the current report. -/
inductive OracleEvent where
  | clear
  | deliver (r : StatusReport)
deriving DecidableEq

/-- Modelled from the spec: the effect of one oracle event on the held
report. -/
def oracleStep : Option StatusReport → OracleEvent → Option StatusReport
  | _, .clear => none
  | _, .deliver r => some r

/-- Modelled from the spec: the report the oracle holds after a history of
events (initially it holds none). -/
def oracleState (es : List OracleEvent) : Option StatusReport :=
  es.foldl oracleStep none

/-- Modelled from the spec: `awaitReport` returns the report the oracle
holds at the moment the waiter wakes — the history `es` is everything that
happened up to that moment — or "no report" when the timeout elapsed with
none held. -/
def awaitReport (es : List OracleEvent) : Option StatusReport :=
  oracleState es

/-- One operation's occupancy of the CEC bus: each `/tv/*` handler spawns
one `cec-client` process whose bus session runs from spawn to exit. -/
inductive BusEvent where
  | sessionStart (opId : Nat)
  | sessionEnd (opId : Nat)
deriving DecidableEq

/-- The bus-session trace of one TV operation. -/
def opTrace (opId : Nat) : List BusEvent := [.sessionStart opId, .sessionEnd opId]

/-- `Interleaving xs ys zs`: `zs` is a merge of `xs` and `ys` preserving
each one's internal order.  `server.py` takes no lock and Flask dispatches
each request on its own thread, so every interleaving of two concurrent
operations' traces is a possible schedule. -/
inductive Interleaving : List BusEvent → List BusEvent → List BusEvent → Prop where
  | nil : Interleaving [] [] []
  | left {x : BusEvent} {xs ys zs : List BusEvent} :
      Interleaving xs ys zs → Interleaving (x :: xs) ys (x :: zs)
  | right {y : BusEvent} {xs ys zs : List BusEvent} :
      Interleaving xs ys zs → Interleaving xs (y :: ys) (y :: zs)

/-- Mutual exclusion of two operations on a schedule: one's whole session
precedes the other's. -/
def serializedPair (i j : Nat) (sched : List BusEvent) : Prop :=
  sched = opTrace i ++ opTrace j ∨ sched = opTrace j ++ opTrace i

instance (i j : Nat) (sched : List BusEvent) : Decidable (serializedPair i j sched) :=
  inferInstanceAs (Decidable (_ ∨ _))

/-- A stateless world in which every spawned `cec-client` exits with return
code 0; the TV itself never reports "on": a `pow 0` query always reports
standby. -/
def envNeverOn : Transport Unit where
  run := fun _ cmd =>
    ((), .completed 0
      (if cmd = "pow ".data ++ CEC_DEVICE then "power status: standby".data else []))
  time := fun _ _ => 1

/-- A world in which the `cec-client` binary is absent: every spawn raises
`FileNotFoundError`. -/
def envNotFound : Transport Unit where
  run := fun _ _ => ((), .fileNotFound)
  time := fun _ _ => 0

/-- A world in which every spawn raises an exception other than
`FileNotFoundError` and `TimeoutExpired` — e.g. a `PermissionError` whose
text is "permission denied" — which `cec_send` does not catch. -/
def envFault : Transport Unit where
  run := fun _ _ => ((), .otherError "permission denied".data)
  time := fun _ _ => 0

/-- A world in which `cec-client` completes but its output has no
power-status line. -/
def envGarbage : Transport Unit where
  run := fun _ _ => ((), .completed 0 "garbage".data)
  time := fun _ _ => 1

/-- A world in which a `pow 0` query reports the TV as on. -/
def envOn : Transport Unit where
  run := fun _ cmd =>
    ((), .completed 0
      (if cmd = "pow ".data ++ CEC_DEVICE then "power status: on".data else []))
  time := fun _ _ => 1

/-- A simulated TV: `on 0` turns it on, `standby 0` turns it off, `pow 0`
reports its power status; cec-client always exits 0 on these. -/
structure SimTV where
  isOn : Bool
deriving DecidableEq

/-- The simulated TV's response to each piped command. -/
def simRun (tv : SimTV) (cmd : PyStr) : SimTV × RunOutcome :=
  if cmd = "on ".data ++ CEC_DEVICE then ({ isOn := true }, .completed 0 [])
  else if cmd = "standby ".data ++ CEC_DEVICE then ({ isOn := false }, .completed 0 [])
  else if cmd = "pow ".data ++ CEC_DEVICE then
    (tv, .completed 0
      (if tv.isOn then "power status: on".data else "power status: standby".data))
  else (tv, .completed 1 [])

/-- The simulated TV as a transport. -/
def simTransport : Transport SimTV where
  run := simRun
  time := fun _ _ => 1

/-- A POST to `/wol` bearing no Tailscale identity header and an empty
body. -/
def reqNoAuth : WolRequest :=
  { method := "POST".data, tsUser := none, body := { target := none, mac := none } }

/-- An authenticated POST to `/wol` naming a target that is not in the
targets map. -/
def reqUnknownTarget : WolRequest :=
  { method := "POST".data, tsUser := some "alice@example.com".data,
    body := { target := some "gamingpc".data, mac := none } }

/-- An authenticated POST to `/wol` whose body has neither `target` nor
`mac`. -/
def reqEmptyBody : WolRequest :=
  { method := "POST".data, tsUser := some "alice@example.com".data,
    body := { target := none, mac := none } }

/-! ## Helper lemmas -/

/-- A parsed power-status line yields exactly `(True, "on")` or
`(True, "off")`. -/
theorem parsePowerLine_cases (line : PyStr) (r : Bool × PyStr)
    (h : parsePowerLine line = some r) :
    r = (true, "on".data) ∨ r = (true, "off".data) := by
  unfold parsePowerLine at h
  split at h
  · split at h
    · exact Or.inl (Option.some.inj h).symm
    · exact Or.inr (Option.some.inj h).symm
  · exact absurd h (by simp)

/-- The `tv_status` line scan yields exactly `(True, "on")` or
`(True, "off")`. -/
theorem scanStatusLines_cases (lines : List PyStr) (r : Bool × PyStr)
    (h : scanStatusLines lines = some r) :
    r = (true, "on".data) ∨ r = (true, "off".data) := by
  induction lines with
  | nil => simp [scanStatusLines] at h
  | cons line rest ih =>
    unfold scanStatusLines at h
    rcases hp : parsePowerLine line with _ | p
    · rw [hp] at h
      exact ih h
    · rw [hp] at h
      exact (Option.some.inj h) ▸ parsePowerLine_cases line p hp

/-- A fold of oracle events that ends holding a report either saw that
report delivered or started out already holding it. -/
theorem foldl_oracleStep_some (es : List OracleEvent) :
    ∀ (acc : Option StatusReport) (r : StatusReport),
      es.foldl oracleStep acc = some r → OracleEvent.deliver r ∈ es ∨ acc = some r := by
  induction es with
  | nil => intro acc r h; exact Or.inr h
  | cons e rest ih =>
    intro acc r h
    rcases ih (oracleStep acc e) r h with hm | ha
    · exact Or.inl (List.mem_cons_of_mem _ hm)
    · cases e with
      | clear => simp [oracleStep] at ha
      | deliver r2 =>
        simp [oracleStep] at ha
        subst ha
        exact Or.inl (List.mem_cons_self _ _)

/-- One `cec_send` consults the transport exactly once. -/
theorem cec_send_counting_one {σ : Type} (t : Transport σ) (s : σ) (cmd : PyStr) :
    (cec_send (counting t) (0, s) cmd).1.1 = 1 := by
  rcases h : t.run s cmd with ⟨s2, r⟩
  cases r <;> simp [cec_send, counting, h]

/-! ## Claim theorems -/

/-- C1 (counterexample): against a device that never reports the "on" state
(its status queries always report standby, but cec-client exits 0), `tv_on`
reports success immediately — it does not fail after a retry budget and it
does silently report success. -/
theorem tv_on_success_without_device_on :
    (tv_status envNeverOn ()).2 = Except.ok (true, "off".data) ∧
    (tv_on envNeverOn ()).2 = Except.ok (true, "TV turned on".data) :=
  ⟨by decide, by decide⟩

/-- C1 (amended): `tv_on` makes exactly one cec-client invocation — there is
no retry loop — and its outcome depends only on that invocation's return
code, never on the device's reported state: return code 0 yields success
with message "TV turned on", a nonzero return code yields failure whose
message is the cec-client output (naming no sub-goal). -/
theorem tv_on_single_send_unverified {σ : Type} (t : Transport σ) (s : σ) :
    (tv_on (counting t) (0, s)).1.1 = 1 ∧
    (∀ s2 out, t.run s ("on ".data ++ CEC_DEVICE) = (s2, RunOutcome.completed 0 out) →
      (tv_on t s).2 = Except.ok (true, "TV turned on".data)) ∧
    (∀ s2 rc out, t.run s ("on ".data ++ CEC_DEVICE) = (s2, RunOutcome.completed rc out) →
      rc ≠ 0 → (tv_on t s).2 = Except.ok (false, pyStrip out)) := by
  refine ⟨?_, ?_, ?_⟩
  · exact cec_send_counting_one t s _
  · intro s2 out h
    simp only [tv_on, cec_send]
    rw [h]
    simp
  · intro s2 rc out h hrc
    simp only [tv_on, cec_send]
    rw [h]
    simp [hrc]

/-- C1 (witness): the amended claim instantiated at the device that never
reports "on". -/
theorem tv_on_single_send_unverified_witness :
    (tv_on (counting envNeverOn) (0, ())).1.1 = 1 ∧
    (tv_on envNeverOn ()).2 = Except.ok (true, "TV turned on".data) :=
  ⟨(tv_on_single_send_unverified envNeverOn ()).1,
   (tv_on_single_send_unverified envNeverOn ()).2.1 () [] (by decide)⟩

/-- C2 (counterexample): when the cec-client binary is unavailable,
`tv_status` fails with the message "cec-client not found", not
"CEC not initialized". -/
theorem tv_status_not_found_message :
    (tv_status envNotFound ()).2 = Except.ok (false, "cec-client not found".data) ∧
    (tv_status envNotFound ()).2 ≠ Except.ok (false, "CEC not initialized".data) :=
  ⟨by decide, by decide⟩

/-- C2 (amended): when spawning cec-client raises `FileNotFoundError`,
`tv_status` returns success=false with message "cec-client not found" and
no command line reaches the CEC bus. -/
theorem tv_status_missing_binary {σ : Type} (t : Transport σ) (s : σ)
    (h : (t.run s ("pow ".data ++ CEC_DEVICE)).2 = RunOutcome.fileNotFound) :
    (tv_status t s).2 = Except.ok (false, "cec-client not found".data) ∧
    tv_status_traffic t s = [] := by
  rcases hr : t.run s ("pow ".data ++ CEC_DEVICE) with ⟨s2, r⟩
  have h2 : r = RunOutcome.fileNotFound := by rw [hr] at h; exact h
  subst h2
  constructor
  · simp only [tv_status, cec_send]
    rw [hr]
    simp
  · simp only [tv_status_traffic, cec_traffic]
    rw [hr]

/-- C2 (witness): the amended claim instantiated at the world with no
cec-client binary. -/
theorem tv_status_missing_binary_witness :
    (tv_status envNotFound ()).2 = Except.ok (false, "cec-client not found".data) ∧
    tv_status_traffic envNotFound () = [] :=
  tv_status_missing_binary envNotFound () (by decide)

/-- C3 (counterexample): a status report that fails to parse does not yield
the state Unknown: `tv_status` returns a failure outcome whose message is
the parse error. -/
theorem tv_status_parse_failure_not_unknown :
    (tv_status envGarbage ()).2 =
      Except.ok (false, "could not parse power status: garbage".data) ∧
    (tv_status envGarbage ()).2 ≠ Except.ok (true, "unknown".data) :=
  ⟨by decide, by decide⟩

/-- C3 (amended): every state `tv_status` successfully reports is "on" or
"off" — a strict subset of the spec's five-state set; transitional and
unknown states are never produced, and a parse failure yields a failure
outcome, not a state. -/
theorem tv_status_states_on_off {σ : Type} (t : Transport σ) (s : σ) (msg : PyStr)
    (h : (tv_status t s).2 = Except.ok (true, msg)) :
    msg = "on".data ∨ msg = "off".data := by
  rcases hr : t.run s ("pow ".data ++ CEC_DEVICE) with ⟨s2, r⟩
  cases r with
  | completed rc out =>
    simp only [tv_status, cec_send] at h
    rw [hr] at h
    dsimp only at h
    split at h
    · simp at h
    · split at h
      · rename_i r2 heq
        have hcases := scanStatusLines_cases _ r2 heq
        have h2 : r2 = (true, msg) := Except.ok.inj h
        rcases hcases with h3 | h3 <;> rw [h2] at h3
        · exact Or.inl (congrArg Prod.snd h3)
        · exact Or.inr (congrArg Prod.snd h3)
      · simp at h
  | fileNotFound =>
    simp only [tv_status, cec_send] at h
    rw [hr] at h
    simp at h
  | timedOut =>
    simp only [tv_status, cec_send] at h
    rw [hr] at h
    simp at h
  | otherError e =>
    simp only [tv_status, cec_send] at h
    rw [hr] at h
    simp at h

/-- C3 (witness): the amended claim instantiated at a device reporting
"power status: on". -/
theorem tv_status_states_on_off_witness :
    (tv_status envOn ()).2 = Except.ok (true, "on".data) ∧
    ("on".data = "on".data ∨ "on".data = "off".data) :=
  ⟨by decide, tv_status_states_on_off envOn () "on".data (by decide)⟩

/-- C4 (counterexample): a fault other than `FileNotFoundError` and
`TimeoutExpired` — here a `PermissionError` — propagates out of `tv_status`
and `tv_on` as an unhandled exception instead of being converted to a
(success=false, message) outcome. -/
theorem tv_fault_propagates :
    (tv_status envFault ()).2 = Except.error "permission denied".data ∧
    (tv_on envFault ()).2 = Except.error "permission denied".data :=
  ⟨by decide, by decide⟩

/-- C4 (amended): `cec_send` converts exactly the faults `FileNotFoundError`
and `TimeoutExpired` to (success=false, message) outcomes; any other fault
raised by the subprocess invocation propagates unhandled out of `tv_on`,
`tv_off` and `tv_status` to the caller. -/
theorem fault_handling_incomplete {σ : Type} (t : Transport σ) (s : σ) :
    (∀ s2, t.run s ("on ".data ++ CEC_DEVICE) = (s2, RunOutcome.fileNotFound) →
      (tv_on t s).2 = Except.ok (false, "cec-client not found".data)) ∧
    (∀ s2, t.run s ("on ".data ++ CEC_DEVICE) = (s2, RunOutcome.timedOut) →
      (tv_on t s).2 = Except.ok (false, "cec-client timed out".data)) ∧
    (∀ s2 e, t.run s ("on ".data ++ CEC_DEVICE) = (s2, RunOutcome.otherError e) →
      (tv_on t s).2 = Except.error e) ∧
    (∀ s2 e, t.run s ("standby ".data ++ CEC_DEVICE) = (s2, RunOutcome.otherError e) →
      (tv_off t s).2 = Except.error e) ∧
    (∀ s2 e, t.run s ("pow ".data ++ CEC_DEVICE) = (s2, RunOutcome.otherError e) →
      (tv_status t s).2 = Except.error e) := by
  refine ⟨?_, ?_, ?_, ?_, ?_⟩
  · intro s2 h
    simp only [tv_on, cec_send]
    rw [h]
    simp
  · intro s2 h
    simp only [tv_on, cec_send]
    rw [h]
    simp
  · intro s2 e h
    simp only [tv_on, cec_send]
    rw [h]
  · intro s2 e h
    simp only [tv_off, cec_send]
    rw [h]
  · intro s2 e h
    simp only [tv_status, cec_send]
    rw [h]

/-- C4 (witness): the amended claim instantiated at the permission-fault
world and the missing-binary world. -/
theorem fault_handling_incomplete_witness :
    (tv_off envFault ()).2 = Except.error "permission denied".data ∧
    (tv_on envNotFound ()).2 = Except.ok (false, "cec-client not found".data) :=
  ⟨(fault_handling_incomplete envFault ()).2.2.2.1 () "permission denied".data (by decide),
   (fault_handling_incomplete envNotFound ()).1 () (by decide)⟩

/-- C5: every public operation is bounded: each of `tv_on`, `tv_off` and
`tv_status` consults the transport exactly once (there is no retry loop),
and the single `subprocess.run(..., timeout=10)` call takes at most 10
seconds, so every operation returns in bounded time. -/
theorem operations_bounded {σ : Type} (t : Transport σ) (s : σ) :
    tv_on_elapsed t s ≤ 10 ∧ tv_off_elapsed t s ≤ 10 ∧ tv_status_elapsed t s ≤ 10 ∧
    (tv_on (counting t) (0, s)).1.1 = 1 ∧
    (tv_off (counting t) (0, s)).1.1 = 1 ∧
    (tv_status (counting t) (0, s)).1.1 = 1 := by
  exact ⟨Nat.min_le_right _ _, Nat.min_le_right _ _, Nat.min_le_right _ _,
    cec_send_counting_one t s _, cec_send_counting_one t s _,
    cec_send_counting_one t s _⟩

/-- C6 (counterexample): the schedule that starts operation 2's bus session
while operation 1's is still open is a legal interleaving of the two
operations' traces (server.py takes no lock), and it is not serialized. -/
theorem overlapping_schedule_possible :
    Interleaving (opTrace 1) (opTrace 2)
      [BusEvent.sessionStart 1, BusEvent.sessionStart 2,
       BusEvent.sessionEnd 1, BusEvent.sessionEnd 2] ∧
    ¬ serializedPair 1 2
      [BusEvent.sessionStart 1, BusEvent.sessionStart 2,
       BusEvent.sessionEnd 1, BusEvent.sessionEnd 2] :=
  ⟨.left (.right (.left (.right .nil))), by decide⟩

/-- C6 (amended): server.py provides no mutual exclusion over the bus:
among the legal interleavings of two concurrent operations' bus-session
traces there is one in which the sessions overlap, so bus exclusion is not
guaranteed. -/
theorem no_bus_mutual_exclusion :
    ∃ sched, Interleaving (opTrace 1) (opTrace 2) sched ∧ ¬ serializedPair 1 2 sched := by
  refine ⟨[BusEvent.sessionStart 1, BusEvent.sessionStart 2,
           BusEvent.sessionEnd 1, BusEvent.sessionEnd 2], ?_, ?_⟩
  · exact .left (.right (.left (.right .nil)))
  · decide

/-- C7: a waiter that wakes after a `clear()` never obtains a report
delivered before that `clear()`: whatever report `awaitReport` returns was
delivered by an event after the clear. -/
theorem awaitReport_no_stale (pre post : List OracleEvent) (r : StatusReport)
    (h : awaitReport (pre ++ OracleEvent.clear :: post) = some r) :
    OracleEvent.deliver r ∈ post := by
  unfold awaitReport oracleState at h
  rw [List.foldl_append] at h
  simp only [List.foldl_cons] at h
  have hclear : oracleStep (pre.foldl oracleStep none) OracleEvent.clear = none := rfl
  rw [hclear] at h
  rcases foldl_oracleStep_some post none r h with hm | ha
  · exact hm
  · simp at ha

/-- C7 (witness): with a stale report delivered before the clear and two
fresh ones after it, the report obtained is among the post-clear
deliveries. -/
theorem awaitReport_no_stale_witness :
    OracleEvent.deliver ⟨PowerState.On, 7⟩ ∈
      [OracleEvent.deliver ⟨PowerState.Standby, 3⟩,
       OracleEvent.deliver ⟨PowerState.On, 7⟩] :=
  awaitReport_no_stale [OracleEvent.deliver ⟨PowerState.On, 1⟩] _ _ (by decide)

/-- C8: when every `standby 0` invocation completes with return code 0 (as
against a device that is already off and accepts standby), two consecutive
`tv_off` calls both return success. -/
theorem tv_off_idempotent {σ : Type} (t : Transport σ) (s : σ)
    (h : ∀ st : σ, ∃ out,
      (t.run st ("standby ".data ++ CEC_DEVICE)).2 = RunOutcome.completed 0 out) :
    (tv_off t s).2 = Except.ok (true, "TV turned off".data) ∧
    (tv_off t (tv_off t s).1).2 = Except.ok (true, "TV turned off".data) := by
  have key : ∀ st : σ, (tv_off t st).2 = Except.ok (true, "TV turned off".data) := by
    intro st
    rcases h st with ⟨out, hout⟩
    rcases hr : t.run st ("standby ".data ++ CEC_DEVICE) with ⟨s2, r⟩
    have h2 : r = RunOutcome.completed 0 out := by rw [hr] at hout; exact hout
    subst h2
    simp only [tv_off, cec_send]
    rw [hr]
    simp
  exact ⟨key s, key _⟩

/-- C8 (witness): against the simulated TV that starts out off, both
consecutive `tv_off` calls succeed. -/
theorem tv_off_idempotent_witness :
    (tv_off simTransport ⟨false⟩).2 = Except.ok (true, "TV turned off".data) ∧
    (tv_off simTransport (tv_off simTransport ⟨false⟩).1).2 =
      Except.ok (true, "TV turned off".data) :=
  tv_off_idempotent simTransport ⟨false⟩
    (fun st => ⟨[], by rcases st with ⟨b⟩; cases b <;> decide⟩)

/-- C9 (counterexample): on a MAC whose hex decoding fails outright
(a non-hex character), `send_wol` returns the decoder's error text, not
"invalid MAC address" (and sends nothing). -/
theorem send_wol_nonhex_message :
    send_wol "zz".data =
      ((false, "non-hexadecimal number found in fromhex() arg at position 0".data),
        none) ∧
    (send_wol "zz".data).1 ≠ (false, "invalid MAC address".data) :=
  ⟨by decide, by decide⟩

/-- C9 (amended): after removing `:` and `-`, a MAC that hex-decodes to a
byte string of length other than 6 yields (False, "invalid MAC address")
and no datagram; one that decodes to exactly 6 bytes yields success and the
102-byte datagram of 6 bytes 0xFF followed by 16 repetitions of the MAC;
and one whose hex decoding fails yields the decoder's error message and no
datagram. -/
theorem send_wol_packet_shape (mac : PyStr) :
    (∀ bs, bytes_fromhex (pyRemoveAll '-' (pyRemoveAll ':' mac)) = Except.ok bs →
      bs.length ≠ 6 → send_wol mac = ((false, "invalid MAC address".data), none)) ∧
    (∀ bs, bytes_fromhex (pyRemoveAll '-' (pyRemoveAll ':' mac)) = Except.ok bs →
      bs.length = 6 →
      send_wol mac = ((true, "WoL packet sent to ".data ++ mac),
        some (List.replicate 6 255 ++ (List.replicate 16 bs).flatten)) ∧
      (List.replicate 6 255 ++ (List.replicate 16 bs).flatten).length = 102) ∧
    (∀ i, bytes_fromhex (pyRemoveAll '-' (pyRemoveAll ':' mac)) = Except.error i →
      send_wol mac = ((false, fromhexErrMsg i), none)) := by
  refine ⟨?_, ?_, ?_⟩
  · intro bs h hlen
    simp [send_wol, h, hlen]
  · intro bs h hlen
    refine ⟨by simp [send_wol, h, hlen], ?_⟩
    simp [List.length_append, List.length_flatten, List.map_replicate,
      List.sum_replicate, List.length_replicate, hlen]
  · intro i h
    simp [send_wol, h]

/-- C9 (witness): the amended claim instantiated at a well-formed MAC. -/
theorem send_wol_packet_shape_witness :
    bytes_fromhex (pyRemoveAll '-' (pyRemoveAll ':' "aa:bb:cc:dd:ee:ff".data)) =
      Except.ok [170, 187, 204, 221, 238, 255] ∧
    send_wol "aa:bb:cc:dd:ee:ff".data =
      ((true, "WoL packet sent to aa:bb:cc:dd:ee:ff".data),
        some (List.replicate 6 255 ++
          (List.replicate 16 [170, 187, 204, 221, 238, 255]).flatten)) :=
  ⟨by decide,
   ((send_wol_packet_shape "aa:bb:cc:dd:ee:ff".data).2.1
      [170, 187, 204, 221, 238, 255] (by decide) (by decide)).1⟩

/-- C10: a POST to `/wol` without the Tailscale identity header gets 403
and sends no packet; an authenticated POST naming an unknown target gets
400 and sends no packet; an authenticated POST whose body has neither
`target` nor `mac` gets 400 and sends no packet. -/
theorem wol_handler_rejections (targets : List (PyStr × PyStr)) (req : WolRequest) :
    (req.method = "POST".data → req.tsUser = none →
      wol_handler targets req = (403, [])) ∧
    (req.method = "POST".data → ∀ u, req.tsUser = some u → u ≠ [] →
      ∀ name, req.body.target = some name → List.lookup name targets = none →
      wol_handler targets req = (400, [])) ∧
    (req.method = "POST".data → ∀ u, req.tsUser = some u → u ≠ [] →
      req.body.target = none → req.body.mac = none →
      wol_handler targets req = (400, [])) := by
  refine ⟨?_, ?_, ?_⟩
  · intro hm hu
    unfold wol_handler
    rw [hm, hu]
    rw [if_neg (by decide : ¬ ("POST".data = "GET".data))]
    simp
  · intro hm u hu hne name hname hlook
    unfold wol_handler
    rw [hm, hu, hname]
    rw [if_neg (by decide : ¬ ("POST".data = "GET".data))]
    rw [if_neg (show ¬ ((some u).getD [] = []) by simpa using hne)]
    dsimp only
    rw [hlook]
  · intro hm u hu hne hname hmac
    unfold wol_handler
    rw [hm, hu, hname, hmac]
    rw [if_neg (by decide : ¬ ("POST".data = "GET".data))]
    rw [if_neg (show ¬ ((some u).getD [] = []) by simpa using hne)]

/-- C10 (witness): the claim instantiated at the three concrete requests. -/
theorem wol_handler_rejections_witness :
    wol_handler [] reqNoAuth = (403, []) ∧
    wol_handler [] reqUnknownTarget = (400, []) ∧
    wol_handler [] reqEmptyBody = (400, []) :=
  ⟨(wol_handler_rejections [] reqNoAuth).1 rfl rfl,
   (wol_handler_rejections [] reqUnknownTarget).2.1 rfl _ rfl (by decide) _ rfl rfl,
   (wol_handler_rejections [] reqEmptyBody).2.2 rfl _ rfl (by decide) rfl rfl⟩
